import Mathlib

/-!
Verification development for the Anchor two-stage routing/planning pipeline.

The Python sources are shallowly embedded:

* Python strings are Lean `String`s; the built-ins `str.strip`, `str.split`
  and `str.startswith` used by `_strip_code_fences` are modelled character-wise
  (`pyStrip`, `splitTicks`, `startsTicks`) so that everything computes in the
  kernel.  `Char.isWhitespace` stands in for the Python whitespace class.
* `json.loads` (Python standard library, not repository code) is an abstract
  parameter `jsonLoads : String → Option Json` into a small JSON value type;
  a parse failure (raised `json.JSONDecodeError`) is `none`.
* The pydantic schemas declared in `schemas/routing.py` and
  `schemas/planning.py` become structures together with explicit validators
  (`RoutingResult.validate`, `PlanResult.validate`, ...) that implement the
  declared field constraints: required fields, defaults, the `Literal`
  enumerations, and `min_length=1` on `domains`.  A `ValidationError` is
  `none`.  `model_dump` serialises a value back to JSON.
* The two blocking `ollama.generate` calls are abstracted by their responses:
  `genResp : String` is the response to the initial generation call, and
  `repair : String → String` maps the raw text embedded in the repair prompt
  to the (stripped) response of the corresponding repair call, as in
  `_repair_json_with_ollama`.  Prompt text itself carries no logic.
* Fallible Python code (`try`/`except` around parse+validate) is `Option`.

`...T` variants of the two entry points additionally return the list of
backend responses produced during the invocation, in order, to reason about
the number of generation calls and the chaining of repair attempts.
-/

namespace Anchor

/-! ### Character-level models of the Python string built-ins -/

/-- The backtick character, written via its code point. -/
def backtick : Char := Char.ofNat 96

/-- Model of Python `s.split("```")`: split on non-overlapping occurrences of
three backticks, scanning left to right.  `acc` holds the current piece,
reversed. -/
def splitTicks : List Char → List Char → List (List Char)
  | [], acc => [acc.reverse]
  | [c1], acc => [(c1 :: acc).reverse]
  | [c1, c2], acc => [(c2 :: c1 :: acc).reverse]
  | c1 :: c2 :: c3 :: rest, acc =>
    if c1 = backtick ∧ c2 = backtick ∧ c3 = backtick then
      acc.reverse :: splitTicks rest []
    else
      splitTicks (c2 :: c3 :: rest) (c1 :: acc)

/-- Model of Python `s.strip()`: drop leading and trailing whitespace. -/
def pyStrip (l : List Char) : List Char :=
  ((l.dropWhile Char.isWhitespace).reverse.dropWhile Char.isWhitespace).reverse

/-- Model of Python `s.startswith("```")`. -/
def startsTicks : List Char → Bool
  | c1 :: c2 :: c3 :: _ => c1 = backtick && c2 = backtick && c3 = backtick
  | _ => false

/-! ### JSON values (image of Python `json.loads`) -/

/-- JSON-compatible data as produced by `json.loads`. -/
inductive Json where
  | null : Json
  | bool (b : Bool) : Json
  | num (n : Int) : Json
  | str (s : String) : Json
  | arr (items : List Json) : Json
  | obj (fields : List (String × Json)) : Json

/-- Key lookup in a JSON object (Python dict access). -/
def lookupField : List (String × Json) → String → Option Json
  | [], _ => none
  | (k, v) :: rest, key => if k = key then some v else lookupField rest key

/-- A required pydantic field: missing key or failed inner parse is an error. -/
def reqField {T : Type} (fields : List (String × Json)) (key : String)
    (p : Json → Option T) : Option T :=
  match lookupField fields key with
  | none => none
  | some j => p j

/-- An optional pydantic field with a default: missing key yields the default,
a present key must parse. -/
def optField {T : Type} (fields : List (String × Json)) (key : String)
    (p : Json → Option T) (dflt : T) : Option T :=
  match lookupField fields key with
  | none => some dflt
  | some j => p j

/-! ### `schemas/routing.py` -/

/-- `Domain = Literal["reminders", "mail", "files", "browser", "system", "unknown"]` -/
inductive Domain where
  | reminders | mail | files | browser | system | unknown
deriving DecidableEq

/-- `Risk = Literal["low", "medium", "high"]` -/
inductive Risk where
  | low | medium | high
deriving DecidableEq

/-- The `Literal["shortcuts", "browser", "files_api"]` entries of `hints.prefer`. -/
inductive PreferTool where
  | shortcuts | browser | files_api
deriving DecidableEq

/-- The `Literal["draft", "send"]` values of `hints.mail_default`. -/
inductive MailDefault where
  | draft | send
deriving DecidableEq

/-- `class RoutingHints(BaseModel)` with its field defaults. -/
structure RoutingHints where
  prefer : List PreferTool := []
  mail_default : Option MailDefault := none
  require_confirmation : Bool := true
deriving DecidableEq

/-- `class RoutingResult(BaseModel)` with its field defaults. -/
structure RoutingResult where
  domains : List Domain
  risk : Risk
  needs_clarification : Bool
  questions : List String := []
  hints : RoutingHints := {}
deriving DecidableEq

/-! ### `schemas/planning.py` -/

/-- `ToolName = Literal[...]`, the five primitive tool names. -/
inductive ToolName where
  | shortcuts_run | browser_run | files_apply | system_open_app | pause_for_user
deriving DecidableEq

/-- `class Action(BaseModel)`: `args` is an arbitrary JSON object
(`Dict[str, Any]`), unvalidated beyond being a mapping. -/
structure Action where
  tool : ToolName
  args : List (String × Json)
  needs_confirmation : Bool := true

/-- `class PlanResult(BaseModel)` with its field defaults. -/
structure PlanResult where
  explanation : String
  actions : List Action := []
  questions : List String := []

/-! ### Pydantic validation of the two schemas -/

/-- Parse a JSON value as a `Domain` literal. -/
def parseDomain : Json → Option Domain
  | Json.str "reminders" => some Domain.reminders
  | Json.str "mail" => some Domain.mail
  | Json.str "files" => some Domain.files
  | Json.str "browser" => some Domain.browser
  | Json.str "system" => some Domain.system
  | Json.str "unknown" => some Domain.unknown
  | _ => none

/-- Parse a JSON value as a `List[Domain]`. -/
def parseDomainList : Json → Option (List Domain)
  | Json.arr xs => xs.mapM parseDomain
  | _ => none

/-- Parse a JSON value as a `Risk` literal. -/
def parseRisk : Json → Option Risk
  | Json.str "low" => some Risk.low
  | Json.str "medium" => some Risk.medium
  | Json.str "high" => some Risk.high
  | _ => none

/-- Parse a JSON value as a `bool`. -/
def parseBool : Json → Option Bool
  | Json.bool b => some b
  | _ => none

/-- Parse a JSON value as a `str`. -/
def parseStr : Json → Option String
  | Json.str s => some s
  | _ => none

/-- Parse a JSON value as a `List[str]`. -/
def parseStrList : Json → Option (List String)
  | Json.arr xs => xs.mapM parseStr
  | _ => none

/-- Parse a JSON value as a `hints.prefer` literal. -/
def parsePreferTool : Json → Option PreferTool
  | Json.str "shortcuts" => some PreferTool.shortcuts
  | Json.str "browser" => some PreferTool.browser
  | Json.str "files_api" => some PreferTool.files_api
  | _ => none

/-- Parse a JSON value as `List[Literal["shortcuts", "browser", "files_api"]]`. -/
def parsePreferList : Json → Option (List PreferTool)
  | Json.arr xs => xs.mapM parsePreferTool
  | _ => none

/-- Parse a JSON value as `Optional[Literal["draft", "send"]]` (null allowed). -/
def parseMailDefault : Json → Option (Option MailDefault)
  | Json.null => some none
  | Json.str "draft" => some (some MailDefault.draft)
  | Json.str "send" => some (some MailDefault.send)
  | _ => none

/-- Pydantic validation of `RoutingHints` from a JSON value. -/
def RoutingHints.validate : Json → Option RoutingHints
  | Json.obj fields =>
    match optField fields "prefer" parsePreferList [] with
    | none => none
    | some prefList =>
      match optField fields "mail_default" parseMailDefault none with
      | none => none
      | some mail_default =>
        match optField fields "require_confirmation" parseBool true with
        | none => none
        | some rc =>
          some { prefer := prefList, mail_default := mail_default, require_confirmation := rc }
  | _ => none

/-- Pydantic validation of `RoutingResult` from a JSON value, including the
`min_length=1` constraint on `domains`. -/
def RoutingResult.validate : Json → Option RoutingResult
  | Json.obj fields =>
    match reqField fields "domains" parseDomainList with
    | none => none
    | some domains =>
      if domains.isEmpty then none
      else
        match reqField fields "risk" parseRisk with
        | none => none
        | some risk =>
          match reqField fields "needs_clarification" parseBool with
          | none => none
          | some nc =>
            match optField fields "questions" parseStrList [] with
            | none => none
            | some questions =>
              match optField fields "hints" RoutingHints.validate {} with
              | none => none
              | some hints =>
                some { domains := domains, risk := risk, needs_clarification := nc,
                       questions := questions, hints := hints }
  | _ => none

/-- Parse a JSON value as a `ToolName` literal. -/
def parseTool : Json → Option ToolName
  | Json.str "shortcuts.run" => some ToolName.shortcuts_run
  | Json.str "browser.run" => some ToolName.browser_run
  | Json.str "files.apply" => some ToolName.files_apply
  | Json.str "system.open_app" => some ToolName.system_open_app
  | Json.str "pause_for_user" => some ToolName.pause_for_user
  | _ => none

/-- Parse a JSON value as the `args` mapping of an `Action`. -/
def parseArgs : Json → Option (List (String × Json))
  | Json.obj fields => some fields
  | _ => none

/-- Pydantic validation of `Action` from a JSON value. -/
def Action.validate : Json → Option Action
  | Json.obj fields =>
    match reqField fields "tool" parseTool with
    | none => none
    | some tool =>
      match reqField fields "args" parseArgs with
      | none => none
      | some args =>
        match optField fields "needs_confirmation" parseBool true with
        | none => none
        | some nc => some { tool := tool, args := args, needs_confirmation := nc }
  | _ => none

/-- Parse a JSON value as a `List[Action]`. -/
def parseActionList : Json → Option (List Action)
  | Json.arr xs => xs.mapM Action.validate
  | _ => none

/-- Pydantic validation of `PlanResult` from a JSON value. -/
def PlanResult.validate : Json → Option PlanResult
  | Json.obj fields =>
    match reqField fields "explanation" parseStr with
    | none => none
    | some explanation =>
      match optField fields "actions" parseActionList [] with
      | none => none
      | some actions =>
        match optField fields "questions" parseStrList [] with
        | none => none
        | some questions =>
          some { explanation := explanation, actions := actions, questions := questions }
  | _ => none

/-! ### `model_dump` serialisation back to JSON -/

/-- Serialise a `Domain` to its JSON string. -/
def Domain.model_dump : Domain → Json
  | Domain.reminders => Json.str "reminders"
  | Domain.mail => Json.str "mail"
  | Domain.files => Json.str "files"
  | Domain.browser => Json.str "browser"
  | Domain.system => Json.str "system"
  | Domain.unknown => Json.str "unknown"

/-- Serialise a `Risk` to its JSON string. -/
def Risk.model_dump : Risk → Json
  | Risk.low => Json.str "low"
  | Risk.medium => Json.str "medium"
  | Risk.high => Json.str "high"

/-- Serialise a `hints.prefer` entry to its JSON string. -/
def PreferTool.model_dump : PreferTool → Json
  | PreferTool.shortcuts => Json.str "shortcuts"
  | PreferTool.browser => Json.str "browser"
  | PreferTool.files_api => Json.str "files_api"

/-- Serialise `hints.mail_default` to JSON (`None` becomes `null`). -/
def mailDefaultDump : Option MailDefault → Json
  | none => Json.null
  | some MailDefault.draft => Json.str "draft"
  | some MailDefault.send => Json.str "send"

/-- `RoutingHints.model_dump()`. -/
def RoutingHints.model_dump (h : RoutingHints) : Json :=
  Json.obj
    [("prefer", Json.arr (h.prefer.map PreferTool.model_dump)),
     ("mail_default", mailDefaultDump h.mail_default),
     ("require_confirmation", Json.bool h.require_confirmation)]

/-- `RoutingResult.model_dump()`. -/
def RoutingResult.model_dump (r : RoutingResult) : Json :=
  Json.obj
    [("domains", Json.arr (r.domains.map Domain.model_dump)),
     ("risk", r.risk.model_dump),
     ("needs_clarification", Json.bool r.needs_clarification),
     ("questions", Json.arr (r.questions.map Json.str)),
     ("hints", r.hints.model_dump)]

/-- Serialise a `ToolName` to its JSON string. -/
def ToolName.model_dump : ToolName → Json
  | ToolName.shortcuts_run => Json.str "shortcuts.run"
  | ToolName.browser_run => Json.str "browser.run"
  | ToolName.files_apply => Json.str "files.apply"
  | ToolName.system_open_app => Json.str "system.open_app"
  | ToolName.pause_for_user => Json.str "pause_for_user"

/-- `Action.model_dump()`. -/
def Action.model_dump (a : Action) : Json :=
  Json.obj
    [("tool", a.tool.model_dump),
     ("args", Json.obj a.args),
     ("needs_confirmation", Json.bool a.needs_confirmation)]

/-- `PlanResult.model_dump()`. -/
def PlanResult.model_dump (p : PlanResult) : Json :=
  Json.obj
    [("explanation", Json.str p.explanation),
     ("actions", Json.arr (p.actions.map Action.model_dump)),
     ("questions", Json.arr (p.questions.map Json.str))]

/-! ### `helper_functions/funcs.py` -/

/-- `_strip_code_fences` from `helper_functions/funcs.py`:
strip the input, and if it starts with three backticks, split on three
backticks and return the stripped second piece (`parts[1].strip()`);
otherwise return the stripped input. -/
def _strip_code_fences (s : String) : String :=
  let t := pyStrip s.data
  if startsTicks t then
    match splitTicks t [] with
    | _ :: p :: _ => String.mk (pyStrip p)
    | _ => String.mk t
  else String.mk t

/-- `_parse_and_validate`: strip fences, `json.loads`, then validate with the
given pydantic schema.  `jsonLoads` abstracts the standard-library JSON
parser; exceptions become `none`. -/
def _parse_and_validate {T : Type} (jsonLoads : String → Option Json)
    (raw : String) (schema : Json → Option T) : Option T :=
  (jsonLoads (_strip_code_fences raw)).bind schema

/-- `_try_parse_routing` from `helper_functions/funcs.py`. -/
def _try_parse_routing (jsonLoads : String → Option Json) (raw : String) :
    Option RoutingResult :=
  _parse_and_validate jsonLoads raw RoutingResult.validate

/-- `_try_parse_plan` from `helper_functions/funcs.py`. -/
def _try_parse_plan (jsonLoads : String → Option Json) (raw : String) :
    Option PlanResult :=
  _parse_and_validate jsonLoads raw PlanResult.validate

/-! ### `llm/router.py` -/

/-- The hard-coded routing fallback returned by `route_user_request` when all
repair attempts are exhausted. -/
def routingFallback : RoutingResult :=
  { domains := [Domain.unknown]
    risk := Risk.medium
    needs_clarification := true
    questions := ["I\x27m not sure what you want to do. Could you rephrase in one sentence?"]
    hints := { prefer := [PreferTool.shortcuts]
               mail_default := some MailDefault.draft
               require_confirmation := true } }

/-- The repair loop of `route_user_request`: `for _ in range(max_repair_attempts)`,
repair the current raw text, return on successful parse, otherwise re-bind
`raw` to the repaired text; on exhaustion return the fallback. -/
def routeRepairLoop (jsonLoads : String → Option Json) (repair : String → String) :
    Nat → String → RoutingResult
  | 0, _ => routingFallback
  | Nat.succ n, raw =>
    match _try_parse_routing jsonLoads (repair raw) with
    | some result => result
    | none => routeRepairLoop jsonLoads repair n (repair raw)

/-- `route_user_request` from `llm/router.py`.  Prompt construction and the
`ollama.generate` call are abstracted: `genResp` is the backend response to
the composed prompt, `repair` the backend response of a repair call given the
raw text it is asked to fix. -/
def route_user_request (jsonLoads : String → Option Json)
    (repair : String → String) (genResp : String)
    (max_repair_attempts : Nat) : RoutingResult :=
  match _try_parse_routing jsonLoads genResp with
  | some result => result
  | none => routeRepairLoop jsonLoads repair max_repair_attempts genResp

/-- Instrumented repair loop: also returns the backend responses of the repair
calls it issued, in order. -/
def routeRepairLoopT (jsonLoads : String → Option Json) (repair : String → String) :
    Nat → String → RoutingResult × List String
  | 0, _ => (routingFallback, [])
  | Nat.succ n, raw =>
    match _try_parse_routing jsonLoads (repair raw) with
    | some result => (result, [repair raw])
    | none =>
      ((routeRepairLoopT jsonLoads repair n (repair raw)).1,
        repair raw :: (routeRepairLoopT jsonLoads repair n (repair raw)).2)

/-- Instrumented `route_user_request`: also returns all backend responses of
the invocation (the initial generation response, then the repair responses). -/
def route_user_requestT (jsonLoads : String → Option Json)
    (repair : String → String) (genResp : String)
    (max_repair_attempts : Nat) : RoutingResult × List String :=
  match _try_parse_routing jsonLoads genResp with
  | some result => (result, [genResp])
  | none =>
    ((routeRepairLoopT jsonLoads repair max_repair_attempts genResp).1,
      genResp :: (routeRepairLoopT jsonLoads repair max_repair_attempts genResp).2)

/-! ### `llm/planning.py` -/

/-- Explanation text of the clarification override in `enforce_policy` and of
the early short-circuit in `plan_user_request`. -/
def needMoreInfoExplanation : String :=
  "I need a bit more information before I can plan this."

/-- Default clarifying question used by `enforce_policy` when the routing
result carries no questions (Python `routing.questions or [...]`). -/
def defaultClarifyQuestion : String :=
  "Could you clarify what you want to do?"

/-- `enforce_policy` from `llm/planning.py`: deterministic post-LLM
guardrails.  The Python in-place mutation of `needs_confirmation` becomes a
functional update of the action list. -/
def enforce_policy (plan : PlanResult) (routing : RoutingResult) : PlanResult :=
  if routing.needs_clarification then
    { explanation := needMoreInfoExplanation
      actions := []
      questions :=
        if routing.questions.isEmpty then [defaultClarifyQuestion]
        else routing.questions }
  else
    if routing.risk = Risk.medium ∨ routing.risk = Risk.high ∨
        routing.hints.require_confirmation = true then
      { plan with actions := plan.actions.map fun a => { a with needs_confirmation := true } }
    else plan

/-- The hard-coded planning fallback assigned when the plan repair loop is
exhausted. -/
def planningFallback : PlanResult :=
  { explanation := "I couldn\x27t safely create a plan. Please rephrase your request."
    actions := []
    questions := ["What would you like me to do? Please include any important details like time, person, or file name."] }

/-- The repair loop of `plan_user_request` (`for ... else` with `break`):
on exhaustion the plan is the hard-coded fallback. -/
def planRepairLoop (jsonLoads : String → Option Json) (repair : String → String) :
    Nat → String → PlanResult
  | 0, _ => planningFallback
  | Nat.succ n, raw =>
    match _try_parse_plan jsonLoads (repair raw) with
    | some result => result
    | none => planRepairLoop jsonLoads repair n (repair raw)

/-- `plan_user_request` from `llm/planning.py`.  The validated routing result
is taken directly; `genResp` and `repair` abstract the generation backend as
in `route_user_request`.  The result is always passed through
`enforce_policy`, except on the early clarification short-circuit, which
returns before any generation call. -/
def plan_user_request (jsonLoads : String → Option Json)
    (repair : String → String) (routing : RoutingResult) (genResp : String)
    (max_repair_attempts : Nat) : PlanResult :=
  if routing.needs_clarification then
    { explanation := needMoreInfoExplanation
      actions := []
      questions := routing.questions }
  else
    match _try_parse_plan jsonLoads genResp with
    | some p => enforce_policy p routing
    | none =>
      enforce_policy (planRepairLoop jsonLoads repair max_repair_attempts genResp) routing

/-- Instrumented plan repair loop, returning the repair responses issued. -/
def planRepairLoopT (jsonLoads : String → Option Json) (repair : String → String) :
    Nat → String → PlanResult × List String
  | 0, _ => (planningFallback, [])
  | Nat.succ n, raw =>
    match _try_parse_plan jsonLoads (repair raw) with
    | some result => (result, [repair raw])
    | none =>
      ((planRepairLoopT jsonLoads repair n (repair raw)).1,
        repair raw :: (planRepairLoopT jsonLoads repair n (repair raw)).2)

/-- Instrumented `plan_user_request`: also returns all backend responses of
the invocation (none on the clarification short-circuit). -/
def plan_user_requestT (jsonLoads : String → Option Json)
    (repair : String → String) (routing : RoutingResult) (genResp : String)
    (max_repair_attempts : Nat) : PlanResult × List String :=
  if routing.needs_clarification then
    ({ explanation := needMoreInfoExplanation
       actions := []
       questions := routing.questions }, [])
  else
    match _try_parse_plan jsonLoads genResp with
    | some p => (enforce_policy p routing, [genResp])
    | none =>
      (enforce_policy (planRepairLoopT jsonLoads repair max_repair_attempts genResp).1 routing,
        genResp :: (planRepairLoopT jsonLoads repair max_repair_attempts genResp).2)

/-! ### `sc.py` (standalone duplicate of the routing pipeline) -/

namespace sc

/-- `_strip_code_fences` as re-declared in `sc.py` (textually identical to the
version in `helper_functions/funcs.py`). -/
def _strip_code_fences (s : String) : String :=
  let t := pyStrip s.data
  if startsTicks t then
    match splitTicks t [] with
    | _ :: p :: _ => String.mk (pyStrip p)
    | _ => String.mk t
  else String.mk t

/-- `_try_parse_routing` as declared in `sc.py`: strip fences, `json.loads`,
validate as `RoutingResult` (inlining what `funcs.py` factors through
`_parse_and_validate`). -/
def _try_parse_routing (jsonLoads : String → Option Json) (raw : String) :
    Option RoutingResult :=
  (jsonLoads (sc._strip_code_fences raw)).bind RoutingResult.validate

/-- The repair loop of the `route_user_request` declared in `sc.py`. -/
def routeRepairLoop (jsonLoads : String → Option Json) (repair : String → String) :
    Nat → String → RoutingResult
  | 0, _ => routingFallback
  | Nat.succ n, raw =>
    match sc._try_parse_routing jsonLoads (repair raw) with
    | some result => result
    | none => sc.routeRepairLoop jsonLoads repair n (repair raw)

/-- `route_user_request` as re-declared in `sc.py`, abstracting the backend as
in the `llm/router.py` embedding. -/
def route_user_request (jsonLoads : String → Option Json)
    (repair : String → String) (genResp : String)
    (max_repair_attempts : Nat) : RoutingResult :=
  match sc._try_parse_routing jsonLoads genResp with
  | some result => result
  | none => sc.routeRepairLoop jsonLoads repair max_repair_attempts genResp

end sc


/-! ### Concrete values used by witnesses and counterexamples -/

/-- A `json.loads` behaviour under which no raw text parses (for example, the
backend keeps answering prose instead of JSON). -/
def jlNone : String → Option Json := fun _ => none

/-- A repair backend that echoes the raw text back unchanged. -/
def echoRepair : String → String := fun s => s

/-- A routing result with medium risk and no clarification request. -/
def routingMediumEx : RoutingResult :=
  { domains := [Domain.files], risk := Risk.medium, needs_clarification := false }

/-- A routing result that requests clarification but carries no questions. -/
def routingClarNoQEx : RoutingResult :=
  { domains := [Domain.unknown], risk := Risk.low, needs_clarification := true }

/-- A routing result that requests clarification with one question. -/
def routingClarQEx : RoutingResult :=
  { domains := [Domain.mail], risk := Risk.low, needs_clarification := true,
    questions := ["Which John do you mean?"] }

/-- A low-risk routing result whose hints do not require confirmation. -/
def routingLowNoConfirmEx : RoutingResult :=
  { domains := [Domain.mail], risk := Risk.low, needs_clarification := false,
    hints := { require_confirmation := false } }

/-- A generated plan with one action the generator left unconfirmed. -/
def planEx : PlanResult :=
  { explanation := "Draft the email for review."
    actions := [{ tool := ToolName.shortcuts_run,
                  args := [("name", Json.str "Draft Email")],
                  needs_confirmation := false }]
    questions := [] }

/-! ### Helper lemmas about `enforce_policy` -/

/-- Clarification branch of `enforce_policy`, characterised. -/
theorem enforce_policy_clar (plan : PlanResult) (routing : RoutingResult)
    (h : routing.needs_clarification = true) :
    enforce_policy plan routing =
      { explanation := needMoreInfoExplanation
        actions := []
        questions :=
          if routing.questions.isEmpty then [defaultClarifyQuestion]
          else routing.questions } := by
  unfold enforce_policy
  rw [h]
  simp

/-- Non-clarification branch of `enforce_policy`, characterised. -/
theorem enforce_policy_not_clar (plan : PlanResult) (routing : RoutingResult)
    (h : routing.needs_clarification = false) :
    enforce_policy plan routing =
      if routing.risk = Risk.medium ∨ routing.risk = Risk.high ∨
          routing.hints.require_confirmation = true then
        { plan with actions := plan.actions.map fun a => { a with needs_confirmation := true } }
      else plan := by
  unfold enforce_policy
  rw [h]
  simp

/-- `enforce_policy` leaves a plan with no actions unchanged when no
clarification is requested. -/
theorem enforce_policy_no_actions (plan : PlanResult) (routing : RoutingResult)
    (hc : routing.needs_clarification = false) (ha : plan.actions = []) :
    enforce_policy plan routing = plan := by
  rw [enforce_policy_not_clar plan routing hc]
  split
  · cases plan
    simp_all
  · rfl

/-! ### Claim theorems -/

/-- C1: for every plan and every routing result with `needs_clarification =
false` whose risk is medium or high or whose hints require confirmation,
every action in `enforce_policy plan routing` has `needs_confirmation =
true`, regardless of the flags in the input plan. -/
theorem c1_enforce_policy_forces_confirmation (plan : PlanResult) (routing : RoutingResult)
    (h1 : routing.needs_clarification = false)
    (h2 : routing.risk = Risk.medium ∨ routing.risk = Risk.high ∨
      routing.hints.require_confirmation = true) :
    ((enforce_policy plan routing).actions.all fun a => a.needs_confirmation) = true := by
  rw [enforce_policy_not_clar plan routing h1, if_pos h2]
  simp [List.all_eq_true]

/-- Witness for C1: a medium-risk routing result and a plan whose single
action was generated with `needs_confirmation = false`. -/
theorem c1_enforce_policy_forces_confirmation_witness :
    routingMediumEx.needs_clarification = false ∧
    routingMediumEx.risk = Risk.medium ∧
    ((enforce_policy planEx routingMediumEx).actions.all fun a => a.needs_confirmation) = true :=
  ⟨rfl, rfl,
    c1_enforce_policy_forces_confirmation planEx routingMediumEx rfl (Or.inl rfl)⟩

/-- C2 (amended): for every routing result with `needs_clarification = true`,
`plan_user_request` returns the fixed explanation with empty `actions` and
with `questions` equal to the questions of the routing result, verbatim (hence
non-empty only when those are non-empty), and issues no generation-backend
call, regardless of generator behaviour. -/
theorem c2_short_circuit_verbatim_questions (jsonLoads : String → Option Json)
    (repair : String → String) (routing : RoutingResult) (genResp : String)
    (m : Nat) (h : routing.needs_clarification = true) :
    plan_user_request jsonLoads repair routing genResp m =
      { explanation := needMoreInfoExplanation
        actions := []
        questions := routing.questions } ∧
    (plan_user_requestT jsonLoads repair routing genResp m).2 = [] := by
  unfold plan_user_request plan_user_requestT
  rw [h]
  simp

/-- Witness for C2 (amended): a clarification-requesting routing result with
one question; the plan carries that question verbatim and no backend call is
made. -/
theorem c2_short_circuit_verbatim_questions_witness :
    routingClarQEx.needs_clarification = true ∧
    (plan_user_request jlNone echoRepair routingClarQEx "anything" 1 =
      { explanation := needMoreInfoExplanation
        actions := []
        questions := routingClarQEx.questions } ∧
    (plan_user_requestT jlNone echoRepair routingClarQEx "anything" 1).2 = []) :=
  ⟨rfl, c2_short_circuit_verbatim_questions jlNone echoRepair routingClarQEx "anything" 1 rfl⟩

/-- Counterexample for C2 as stated: with `needs_clarification = true` and an
empty `questions` list in the routing result, `plan_user_request` returns a
plan whose `questions` sequence is empty, not non-empty. -/
theorem c2_counterexample_empty_questions :
    (plan_user_request jlNone echoRepair routingClarNoQEx "anything" 1).questions = [] := rfl

/-- C3: for every plan and every routing result with `needs_clarification =
true`, `enforce_policy` discards the input plan entirely and returns the
fixed clarification plan: the fixed explanation, empty actions, and the
questions of the routing result, or the single default clarifying question when
those are empty; the result does not depend on the input plan, so the
medium/high-risk confirmation rule is never applied. -/
theorem c3_enforce_policy_clarification_override (plan : PlanResult) (routing : RoutingResult)
    (h : routing.needs_clarification = true) :
    enforce_policy plan routing =
      { explanation := needMoreInfoExplanation
        actions := []
        questions :=
          if routing.questions.isEmpty then [defaultClarifyQuestion]
          else routing.questions } :=
  enforce_policy_clar plan routing h

/-- Witness for C3: a clarification-requesting routing result with no
questions applied to a plan that has an action; the action is dropped and the
default question is returned. -/
theorem c3_enforce_policy_clarification_override_witness :
    routingClarNoQEx.needs_clarification = true ∧
    enforce_policy planEx routingClarNoQEx =
      { explanation := needMoreInfoExplanation
        actions := []
        questions :=
          if routingClarNoQEx.questions.isEmpty then [defaultClarifyQuestion]
          else routingClarNoQEx.questions } :=
  ⟨rfl, c3_enforce_policy_clarification_override planEx routingClarNoQEx rfl⟩

/-- C7: `enforce_policy` is idempotent: applying it twice to the same
(plan, routing) pair yields the same plan as applying it once. -/
theorem c7_enforce_policy_idempotent (plan : PlanResult) (routing : RoutingResult) :
    enforce_policy (enforce_policy plan routing) routing = enforce_policy plan routing := by
  cases hc : routing.needs_clarification
  · rw [enforce_policy_not_clar plan routing hc,
      enforce_policy_not_clar _ routing hc]
    split
    · simp [List.map_map, Function.comp_def]
    · rfl
  · rw [enforce_policy_clar plan routing hc, enforce_policy_clar _ routing hc]

/-- C9: when no clarification is requested, `enforce_policy` changes at most
the `needs_confirmation` flags: the explanation, the questions, and the
sequence of (tool, args) pairs of the actions are unchanged. -/
theorem c9_enforce_policy_frame (plan : PlanResult) (routing : RoutingResult)
    (h : routing.needs_clarification = false) :
    (enforce_policy plan routing).explanation = plan.explanation ∧
    (enforce_policy plan routing).questions = plan.questions ∧
    ((enforce_policy plan routing).actions.map fun a => (a.tool, a.args)) =
      (plan.actions.map fun a => (a.tool, a.args)) := by
  rw [enforce_policy_not_clar plan routing h]
  split
  · refine ⟨rfl, rfl, ?_⟩
    simp only [List.map_map]
    congr 1
  · exact ⟨rfl, rfl, rfl⟩

/-- Witness for C9: the frame property at the concrete medium-risk routing
result and the concrete one-action plan. -/
theorem c9_enforce_policy_frame_witness :
    routingMediumEx.needs_clarification = false ∧
    ((enforce_policy planEx routingMediumEx).explanation = planEx.explanation ∧
    (enforce_policy planEx routingMediumEx).questions = planEx.questions ∧
    ((enforce_policy planEx routingMediumEx).actions.map fun a => (a.tool, a.args)) =
      (planEx.actions.map fun a => (a.tool, a.args))) :=
  ⟨rfl, c9_enforce_policy_frame planEx routingMediumEx rfl⟩


/-! ### Helper lemmas about validation and the repair loops -/

/-- Any `RoutingResult` accepted by the schema validator has a non-empty
`domains` list (the `min_length=1` constraint). -/
theorem validate_domains_ne (j : Json) (r : RoutingResult)
    (h : RoutingResult.validate j = some r) : r.domains.isEmpty = false := by
  cases j <;> simp only [RoutingResult.validate] at h
  case obj fields =>
    split at h
    · exact Option.noConfusion h
    · split at h
      · exact Option.noConfusion h
      · split at h
        · exact Option.noConfusion h
        · split at h
          · exact Option.noConfusion h
          · split at h
            · exact Option.noConfusion h
            · split at h
              · exact Option.noConfusion h
              · injection h with h
                subst h
                simp_all
  all_goals exact Option.noConfusion h

/-- Any `RoutingResult` produced by `_try_parse_routing` has a non-empty
`domains` list. -/
theorem tryParse_routing_domains (jsonLoads : String → Option Json) (raw : String)
    (r : RoutingResult) (h : _try_parse_routing jsonLoads raw = some r) :
    r.domains.isEmpty = false := by
  unfold _try_parse_routing _parse_and_validate at h
  rcases Option.bind_eq_some.mp h with ⟨j, _, hv⟩
  exact validate_domains_ne j r hv

/-- Every result of the routing repair loop has a non-empty `domains` list. -/
theorem routeRepairLoop_domains (jsonLoads : String → Option Json)
    (repair : String → String) :
    ∀ (n : Nat) (raw : String),
      (routeRepairLoop jsonLoads repair n raw).domains.isEmpty = false := by
  intro n
  induction n with
  | zero => intro raw; rfl
  | succ n ih =>
    intro raw
    unfold routeRepairLoop
    cases h : _try_parse_routing jsonLoads (repair raw) with
    | some r => simpa [h] using tryParse_routing_domains _ _ r h
    | none => simpa [h] using ih (repair raw)

/-- If the repaired text fails to parse at every attempt, the routing repair
loop returns the routing fallback. -/
theorem routeRepairLoop_all_fail (jsonLoads : String → Option Json)
    (repair : String → String) :
    ∀ (n : Nat) (raw : String),
      (∀ i, 1 ≤ i → i ≤ n → _try_parse_routing jsonLoads (repair^[i] raw) = none) →
      routeRepairLoop jsonLoads repair n raw = routingFallback := by
  intro n
  induction n with
  | zero => intro raw _; rfl
  | succ n ih =>
    intro raw hfail
    have h1 : _try_parse_routing jsonLoads (repair raw) = none := by
      simpa using hfail 1 le_rfl (Nat.succ_le_succ (Nat.zero_le n))
    unfold routeRepairLoop
    rw [h1]
    exact ih (repair raw) fun i hi hin => by
      have := hfail (i + 1) (Nat.le_add_left 1 i) (Nat.succ_le_succ hin)
      rwa [Function.iterate_succ_apply] at this

/-- If the repaired text fails to parse at every attempt, the plan repair
loop returns the planning fallback. -/
theorem planRepairLoop_all_fail (jsonLoads : String → Option Json)
    (repair : String → String) :
    ∀ (n : Nat) (raw : String),
      (∀ i, 1 ≤ i → i ≤ n → _try_parse_plan jsonLoads (repair^[i] raw) = none) →
      planRepairLoop jsonLoads repair n raw = planningFallback := by
  intro n
  induction n with
  | zero => intro raw _; rfl
  | succ n ih =>
    intro raw hfail
    have h1 : _try_parse_plan jsonLoads (repair raw) = none := by
      simpa using hfail 1 le_rfl (Nat.succ_le_succ (Nat.zero_le n))
    unfold planRepairLoop
    rw [h1]
    exact ih (repair raw) fun i hi hin => by
      have := hfail (i + 1) (Nat.le_add_left 1 i) (Nat.succ_le_succ hin)
      rwa [Function.iterate_succ_apply] at this

/-- The planning fallback passes through `enforce_policy` unchanged when no
clarification is requested (it has no actions to confirm). -/
theorem enforce_policy_planningFallback (routing : RoutingResult)
    (h : routing.needs_clarification = false) :
    enforce_policy planningFallback routing = planningFallback :=
  enforce_policy_no_actions _ routing h rfl

/-! ### Helper lemmas about the instrumented pipelines -/

/-- The instrumented routing repair loop computes the same result as the
plain one. -/
theorem routeRepairLoopT_fst (jsonLoads : String → Option Json)
    (repair : String → String) :
    ∀ (n : Nat) (raw : String),
      (routeRepairLoopT jsonLoads repair n raw).1 = routeRepairLoop jsonLoads repair n raw := by
  intro n
  induction n with
  | zero => intro raw; rfl
  | succ n ih =>
    intro raw
    unfold routeRepairLoopT routeRepairLoop
    cases h : _try_parse_routing jsonLoads (repair raw) with
    | some r => simp [h]
    | none => simp [h, ih]

/-- The instrumented router computes the same result as the plain one. -/
theorem route_user_requestT_fst (jsonLoads : String → Option Json)
    (repair : String → String) (genResp : String) (m : Nat) :
    (route_user_requestT jsonLoads repair genResp m).1 =
      route_user_request jsonLoads repair genResp m := by
  unfold route_user_requestT route_user_request
  cases h : _try_parse_routing jsonLoads genResp with
  | some r => simp [h]
  | none => simp [h, routeRepairLoopT_fst]

/-- The instrumented plan repair loop computes the same result as the plain
one. -/
theorem planRepairLoopT_fst (jsonLoads : String → Option Json)
    (repair : String → String) :
    ∀ (n : Nat) (raw : String),
      (planRepairLoopT jsonLoads repair n raw).1 = planRepairLoop jsonLoads repair n raw := by
  intro n
  induction n with
  | zero => intro raw; rfl
  | succ n ih =>
    intro raw
    unfold planRepairLoopT planRepairLoop
    cases h : _try_parse_plan jsonLoads (repair raw) with
    | some r => simp [h]
    | none => simp [h, ih]

/-- The instrumented planner computes the same result as the plain one. -/
theorem plan_user_requestT_fst (jsonLoads : String → Option Json)
    (repair : String → String) (routing : RoutingResult) (genResp : String) (m : Nat) :
    (plan_user_requestT jsonLoads repair routing genResp m).1 =
      plan_user_request jsonLoads repair routing genResp m := by
  unfold plan_user_requestT plan_user_request
  split
  · rfl
  · cases h : _try_parse_plan jsonLoads genResp with
    | some p => simp [h]
    | none => simp [h, planRepairLoopT_fst]

/-- The routing repair loop issues at most `n` repair calls. -/
theorem routeRepairLoopT_length (jsonLoads : String → Option Json)
    (repair : String → String) :
    ∀ (n : Nat) (raw : String), (routeRepairLoopT jsonLoads repair n raw).2.length ≤ n := by
  intro n
  induction n with
  | zero => intro raw; simp [routeRepairLoopT]
  | succ n ih =>
    intro raw
    unfold routeRepairLoopT
    cases h : _try_parse_routing jsonLoads (repair raw) with
    | some r => simp [h]
    | none =>
      have := ih (repair raw)
      simp only [h, List.length_cons]
      omega

/-- Each response in the routing repair loop is the repair of the previous
raw text, starting from `raw`. -/
theorem routeRepairLoopT_chain (jsonLoads : String → Option Json)
    (repair : String → String) :
    ∀ (n : Nat) (raw : String),
      List.Chain' (fun a b => b = repair a)
        (raw :: (routeRepairLoopT jsonLoads repair n raw).2) := by
  intro n
  induction n with
  | zero => intro raw; simp [routeRepairLoopT]
  | succ n ih =>
    intro raw
    unfold routeRepairLoopT
    cases h : _try_parse_routing jsonLoads (repair raw) with
    | some r => simp [h, List.chain'_cons]
    | none =>
      simp only [h]
      exact List.chain'_cons.mpr ⟨rfl, ih (repair raw)⟩

/-- The plan repair loop issues at most `n` repair calls. -/
theorem planRepairLoopT_length (jsonLoads : String → Option Json)
    (repair : String → String) :
    ∀ (n : Nat) (raw : String), (planRepairLoopT jsonLoads repair n raw).2.length ≤ n := by
  intro n
  induction n with
  | zero => intro raw; simp [planRepairLoopT]
  | succ n ih =>
    intro raw
    unfold planRepairLoopT
    cases h : _try_parse_plan jsonLoads (repair raw) with
    | some r => simp [h]
    | none =>
      have := ih (repair raw)
      simp only [h, List.length_cons]
      omega

/-- Each response in the plan repair loop is the repair of the previous raw
text, starting from `raw`. -/
theorem planRepairLoopT_chain (jsonLoads : String → Option Json)
    (repair : String → String) :
    ∀ (n : Nat) (raw : String),
      List.Chain' (fun a b => b = repair a)
        (raw :: (planRepairLoopT jsonLoads repair n raw).2) := by
  intro n
  induction n with
  | zero => intro raw; simp [planRepairLoopT]
  | succ n ih =>
    intro raw
    unfold planRepairLoopT
    cases h : _try_parse_plan jsonLoads (repair raw) with
    | some r => simp [h, List.chain'_cons]
    | none =>
      simp only [h]
      exact List.chain'_cons.mpr ⟨rfl, ih (repair raw)⟩

/-- Call bound and chaining for one router invocation. -/
theorem route_user_requestT_calls (jsonLoads : String → Option Json)
    (repair : String → String) (genResp : String) (m : Nat) :
    (route_user_requestT jsonLoads repair genResp m).2.length ≤ 1 + m ∧
    List.Chain' (fun a b => b = repair a)
      (route_user_requestT jsonLoads repair genResp m).2 := by
  unfold route_user_requestT
  cases h : _try_parse_routing jsonLoads genResp with
  | some r =>
    constructor
    · simp only [h, List.length_cons, List.length_nil]
      omega
    · simp [h]
  | none =>
    constructor
    · have := routeRepairLoopT_length jsonLoads repair m genResp
      simp only [h, List.length_cons]
      omega
    · have := routeRepairLoopT_chain jsonLoads repair m genResp
      simpa only [h] using this

/-- Call bound and chaining for one planner invocation. -/
theorem plan_user_requestT_calls (jsonLoads : String → Option Json)
    (repair : String → String) (routing : RoutingResult) (genResp : String) (m : Nat) :
    (plan_user_requestT jsonLoads repair routing genResp m).2.length ≤ 1 + m ∧
    List.Chain' (fun a b => b = repair a)
      (plan_user_requestT jsonLoads repair routing genResp m).2 := by
  unfold plan_user_requestT
  split
  · simp
  · cases h : _try_parse_plan jsonLoads genResp with
    | some p =>
      constructor
      · simp only [h, List.length_cons, List.length_nil]
        omega
      · simp [h]
    | none =>
      constructor
      · have := planRepairLoopT_length jsonLoads repair m genResp
        simp only [h, List.length_cons]
        omega
      · have := planRepairLoopT_chain jsonLoads repair m genResp
        simpa only [h] using this

/-! ### Helper lemmas for the `sc.py` duplicates -/

/-- The two `_try_parse_routing` declarations agree definitionally. -/
theorem sc_try_parse_eq (jsonLoads : String → Option Json) (raw : String) :
    sc._try_parse_routing jsonLoads raw = _try_parse_routing jsonLoads raw := rfl

/-- The two routing repair loops agree. -/
theorem sc_routeRepairLoop_eq (jsonLoads : String → Option Json)
    (repair : String → String) :
    ∀ (n : Nat) (raw : String),
      sc.routeRepairLoop jsonLoads repair n raw = routeRepairLoop jsonLoads repair n raw := by
  intro n
  induction n with
  | zero => intro raw; rfl
  | succ n ih =>
    intro raw
    unfold sc.routeRepairLoop routeRepairLoop
    rw [sc_try_parse_eq]
    cases h : _try_parse_routing jsonLoads (repair raw) with
    | some r => simp [h]
    | none => simp [h, ih]

/-! ### Remaining claim theorems -/

/-- C4 (code evaluation at the failing input): `_strip_code_fences` applied
to a fenced block with a `json` language tag returns the inner content still
prefixed by the language tag, because `parts[1]` of the split on the
delimiter starts with the tag; the docstring and the spec say the delimiters
and tag are stripped, leaving exactly the inner content. -/
theorem c4_language_tag_not_stripped :
    _strip_code_fences "```json\n\x7b\"domains\": [\"files\"]\x7d\n```" =
      "json\n\x7b\"domains\": [\"files\"]\x7d" := rfl

/-- C5: when the initial response and all `max_repair_attempts` repaired
responses fail parse-and-validate, `route_user_request` returns exactly the
hard-coded routing fallback and `plan_user_request` (entered with a
no-clarification routing result, so that a generation happens) returns
exactly the hard-coded planning fallback; both fallbacks satisfy their own
schemas (validation of their serialisation succeeds), and no exception
escapes (the embedded functions are total). -/
theorem c5_exhausted_repairs_yield_fallbacks (jsonLoads : String → Option Json)
    (repair : String → String) (m : Nat) (genR genP : String)
    (routing : RoutingResult)
    (hclar : routing.needs_clarification = false)
    (hR : ∀ i, i ≤ m → _try_parse_routing jsonLoads (repair^[i] genR) = none)
    (hP : ∀ i, i ≤ m → _try_parse_plan jsonLoads (repair^[i] genP) = none) :
    route_user_request jsonLoads repair genR m = routingFallback ∧
    plan_user_request jsonLoads repair routing genP m = planningFallback ∧
    RoutingResult.validate routingFallback.model_dump = some routingFallback ∧
    PlanResult.validate planningFallback.model_dump = some planningFallback := by
  refine ⟨?_, ?_, rfl, rfl⟩
  · have h0 : _try_parse_routing jsonLoads genR = none := by
      simpa using hR 0 (Nat.zero_le m)
    unfold route_user_request
    rw [h0]
    exact routeRepairLoop_all_fail jsonLoads repair m genR fun i _ hin => hR i hin
  · have h0 : _try_parse_plan jsonLoads genP = none := by
      simpa using hP 0 (Nat.zero_le m)
    unfold plan_user_request
    simp only [hclar, Bool.false_eq_true, if_false, h0]
    rw [planRepairLoop_all_fail jsonLoads repair m genP fun i _ hin => hP i hin]
    exact enforce_policy_planningFallback routing hclar

/-- Witness for C5: a backend that only ever produces prose (`jlNone` makes
every parse fail) with one repair attempt, for both stages. -/
theorem c5_exhausted_repairs_yield_fallbacks_witness :
    route_user_request jlNone echoRepair "The backend answered in prose." 1 = routingFallback ∧
    plan_user_request jlNone echoRepair routingLowNoConfirmEx "Still prose." 1 = planningFallback ∧
    RoutingResult.validate routingFallback.model_dump = some routingFallback ∧
    PlanResult.validate planningFallback.model_dump = some planningFallback :=
  c5_exhausted_repairs_yield_fallbacks jlNone echoRepair 1
    "The backend answered in prose." "Still prose." routingLowNoConfirmEx rfl
    (fun _ _ => rfl) (fun _ _ => rfl)

/-- C6: every `RoutingResult` returned by `route_user_request` — parsed from
the initial response, from a repaired response, or the fallback — has a
non-empty `domains` list, and every entry is one of the six `Domain`
literals. -/
theorem c6_domains_invariant (jsonLoads : String → Option Json)
    (repair : String → String) (genResp : String) (m : Nat) :
    (route_user_request jsonLoads repair genResp m).domains.isEmpty = false ∧
    ((route_user_request jsonLoads repair genResp m).domains.all fun d =>
      decide (d ∈ [Domain.reminders, Domain.mail, Domain.files, Domain.browser,
        Domain.system, Domain.unknown])) = true := by
  constructor
  · unfold route_user_request
    split
    · next r heq => exact tryParse_routing_domains _ _ r heq
    · exact routeRepairLoop_domains _ _ _ _
  · refine List.all_eq_true.mpr ?_
    intro d _
    cases d <;> rfl

/-- C8: one invocation of either stage issues at most `1 + max_repair_attempts`
backend calls (the initial generation plus the repair calls recorded in the
trace), and consecutive raw texts chain: the input of each repair call is the
response of the previous call. -/
theorem c8_bounded_backend_calls (jsonLoads : String → Option Json)
    (repair : String → String) (genR genP : String) (routing : RoutingResult)
    (m : Nat) :
    ((route_user_requestT jsonLoads repair genR m).2.length ≤ 1 + m ∧
      List.Chain' (fun a b => b = repair a)
        (route_user_requestT jsonLoads repair genR m).2) ∧
    ((plan_user_requestT jsonLoads repair routing genP m).2.length ≤ 1 + m ∧
      List.Chain' (fun a b => b = repair a)
        (plan_user_requestT jsonLoads repair routing genP m).2) :=
  ⟨route_user_requestT_calls jsonLoads repair genR m,
    plan_user_requestT_calls jsonLoads repair routing genP m⟩

/-- C10: the standalone `sc.py` re-declarations of `_strip_code_fences`,
`_try_parse_routing` and `route_user_request` are extensionally equal to the
`helper_functions/funcs.py` and `llm/router.py` versions, for every input
string and every backend behaviour. -/
theorem c10_sc_duplicates_equal :
    (∀ s, sc._strip_code_fences s = _strip_code_fences s) ∧
    (∀ (jsonLoads : String → Option Json) (raw : String),
      sc._try_parse_routing jsonLoads raw = _try_parse_routing jsonLoads raw) ∧
    (∀ (jsonLoads : String → Option Json) (repair : String → String)
      (genResp : String) (m : Nat),
      sc.route_user_request jsonLoads repair genResp m =
        route_user_request jsonLoads repair genResp m) := by
  refine ⟨fun s => rfl, fun jsonLoads raw => rfl, fun jsonLoads repair genResp m => ?_⟩
  unfold sc.route_user_request route_user_request
  rw [sc_try_parse_eq]
  cases h : _try_parse_routing jsonLoads genResp with
  | some r => simp [h]
  | none => simp [h, sc_routeRepairLoop_eq]

end Anchor
